import Mathlib

/-! The class `shapes::Container`: an axis-aligned rectangle held as two integer corners.

Shallow embedding of `Utilities/cython_scripts/Container/Container.cpp`.

* The C++ type `int` is embedded twice. `getArea`, `getSize` and `move` read it as
  the mathematical integers `Int`: they are the code for arithmetic without
  overflow, and carry the properties stated under that proviso. `getArea32`,
  `getSize32` and `move32` read it as 32-bit two's complement with wraparound: they
  are the code on every input, and agree with the former whenever no operation
  overflows (`getArea32_of_no_overflow`, `getSizePair32_of_no_overflow`,
  `move32_of_no_overflow`).
* A member function is a function of the receiver `this`; a member function that
  assigns to data members returns the receiver after the call.
* `getSize` writes through two `int*` parameters, so it runs on a small memory
  made of the receiver and of `int` cells outside it.
-/

namespace shapes

/-- Modelled from the spec: the class declaration (`Container.h`) is not among the
sources. The data members are the four names the member functions read and
assign, `x0`, `y0`, `x1`, `y1`, each an integer. -/
structure Container where
  x0 : Int
  y0 : Int
  x1 : Int
  y1 : Int
deriving DecidableEq, Repr

/-- Source: `Container::Container () {}`, the default constructor. Its body is empty, so
the four members keep whatever the storage `raw` of the new object held. -/
def Container.defaultConstructor (raw : Container) : Container :=
  raw

/-- Source: `Container::Container (int x0, int y0, int x1, int y1)`, the overloaded
constructor: four assignments, in the source's order, on the storage `raw` of the
new object. -/
def Container.overloadedConstructor (raw : Container) (x0 y0 x1 y1 : Int) : Container :=
  let this := raw
  let this := { this with x0 := x0 }
  let this := { this with y0 := y0 }
  let this := { this with x1 := x1 }
  let this := { this with y1 := y1 }
  this

/-- Source: `int Container::getArea ()`:
`return (this->x1 - this->x0) * (this->y1 - this->y0);`, for arithmetic without
overflow (`getArea32` is the same statement with wraparound).
The result is the returned value together with the receiver after the call. -/
def Container.getArea (this : Container) : Int × Container :=
  ((this.x1 - this.x0) * (this.y1 - this.y0), this)

/-- A value of type `int*` as `getSize` can receive it: the address of a data member
of the receiver, or of an `int` cell outside the receiver. -/
inductive IntPtr where
  | x0 : IntPtr
  | y0 : IntPtr
  | x1 : IntPtr
  | y1 : IntPtr
  | cell (n : Nat) : IntPtr
deriving DecidableEq, Repr

/-- The memory `getSize` runs on: the receiver and the `int` cells outside it. -/
structure Memory where
  obj : Container
  cells : Nat → Int

/-- Read of `*p`. -/
def Memory.load (m : Memory) : IntPtr → Int
  | IntPtr.x0 => m.obj.x0
  | IntPtr.y0 => m.obj.y0
  | IntPtr.x1 => m.obj.x1
  | IntPtr.y1 => m.obj.y1
  | IntPtr.cell n => m.cells n

/-- Assignment `(*p) = v`. -/
def Memory.store (m : Memory) (p : IntPtr) (v : Int) : Memory :=
  match p with
  | IntPtr.x0 => { m with obj := { m.obj with x0 := v } }
  | IntPtr.y0 => { m with obj := { m.obj with y0 := v } }
  | IntPtr.x1 => { m with obj := { m.obj with x1 := v } }
  | IntPtr.y1 => { m with obj := { m.obj with y1 := v } }
  | IntPtr.cell n => { m with cells := fun k => if k = n then v else m.cells k }

/-- Source: `void Container::getSize (int *width, int *height)`:
`(*width) = x1 - x0; (*height) = y1 - y0;`, two assignments in this order, the
second reading the members as the first left them, for arithmetic without overflow
(`getSize32` is the same statement with wraparound). -/
def Container.getSize (width height : IntPtr) (m : Memory) : Memory :=
  let m := m.store width (m.obj.x1 - m.obj.x0)
  let m := m.store height (m.obj.y1 - m.obj.y0)
  m

/-- The call `int width, height; c.getSize(&width, &height);` with two distinct
variables of the caller (cells `0` and `1`) as out-parameters: the pair
`(width, height)` read back after the call, and the receiver after the call. -/
def Container.getSizePair (this : Container) : (Int × Int) × Container :=
  let m := Container.getSize (IntPtr.cell 0) (IntPtr.cell 1) ⟨this, fun _ => 0⟩
  ((m.load (IntPtr.cell 0), m.load (IntPtr.cell 1)), m.obj)

/-- Source: `void Container::move (int dx, int dy)`:
`this->x0 += dx; this->y0 += dy; this->x1 += dx; this->y1 += dy;`, for arithmetic
without overflow (`move32` is the same statement with wraparound).
The result is the receiver after the call. -/
def Container.move (this : Container) (dx dy : Int) : Container :=
  let this := { this with x0 := this.x0 + dx }
  let this := { this with y0 := this.y0 + dy }
  let this := { this with x1 := this.x1 + dx }
  let this := { this with y1 := this.y1 + dy }
  this

/-! ## The member functions on 32-bit `int` with wraparound

The same statements of the source, with every `+`, `-`, `*` taken modulo `2^32` and
read back as a two's-complement value. -/

/-- The 32-bit two's-complement value congruent to `z` modulo `2^32`: its representative
in the range from `-2^31` to `2^31 - 1`. -/
def wrapInt32 (z : Int) : Int :=
  (z + 2147483648) % 4294967296 - 2147483648

/-- The test that `z` is a value of a 32-bit `int`. -/
def isInt32 (z : Int) : Bool :=
  decide (-2147483648 ≤ z) && decide (z ≤ 2147483647)

/-- Source: `int Container::getArea ()` on 32-bit `int`:
`return (this->x1 - this->x0) * (this->y1 - this->y0);`, the two differences and the
product each wrapped. -/
def Container.getArea32 (this : Container) : Int × Container :=
  (wrapInt32 (wrapInt32 (this.x1 - this.x0) * wrapInt32 (this.y1 - this.y0)), this)

/-- Source: `void Container::getSize (int *width, int *height)` on 32-bit `int`:
`(*width) = x1 - x0; (*height) = y1 - y0;`, each difference wrapped. -/
def Container.getSize32 (width height : IntPtr) (m : Memory) : Memory :=
  let m := m.store width (wrapInt32 (m.obj.x1 - m.obj.x0))
  let m := m.store height (wrapInt32 (m.obj.y1 - m.obj.y0))
  m

/-- The call `int width, height; c.getSize(&width, &height);` on 32-bit `int`, with two
distinct variables of the caller (cells `0` and `1`) as out-parameters: the pair read
back after the call, and the receiver after the call. -/
def Container.getSizePair32 (this : Container) : (Int × Int) × Container :=
  let m := Container.getSize32 (IntPtr.cell 0) (IntPtr.cell 1) ⟨this, fun _ => 0⟩
  ((m.load (IntPtr.cell 0), m.load (IntPtr.cell 1)), m.obj)

/-- Source: `void Container::move (int dx, int dy)` on 32-bit `int`:
`this->x0 += dx; this->y0 += dy; this->x1 += dx; this->y1 += dy;`, each sum wrapped. -/
def Container.move32 (this : Container) (dx dy : Int) : Container :=
  let this := { this with x0 := wrapInt32 (this.x0 + dx) }
  let this := { this with y0 := wrapInt32 (this.y0 + dy) }
  let this := { this with x1 := wrapInt32 (this.x1 + dx) }
  let this := { this with y1 := wrapInt32 (this.y1 + dy) }
  this

/-! ## Shared lemmas -/

/-- The overloaded constructor overwrites all four members, whatever the storage held. -/
theorem Container.overloadedConstructor_eq (raw : Container) (a b c d : Int) :
    Container.overloadedConstructor raw a b c d = Container.mk a b c d := by
  rfl

/-- With both out-parameters outside the receiver, `getSize` assigns to no data member
(the two out-parameters may even be the same cell). -/
theorem Container.getSize_obj_of_cell (w h : Nat) (m : Memory) :
    (Container.getSize (IntPtr.cell w) (IntPtr.cell h) m).obj = m.obj := by
  rfl

/-- With out-parameters that are distinct cells outside the receiver, after `getSize`
the cell `*width` holds `x1 - x0` and the cell `*height` holds `y1 - y0`. -/
theorem Container.getSize_load_of_cell (w h : Nat) (hne : w ≠ h) (m : Memory) :
    (Container.getSize (IntPtr.cell w) (IntPtr.cell h) m).load (IntPtr.cell w)
        = m.obj.x1 - m.obj.x0
      ∧ (Container.getSize (IntPtr.cell w) (IntPtr.cell h) m).load (IntPtr.cell h)
        = m.obj.y1 - m.obj.y0 := by
  simp [Container.getSize, Memory.store, Memory.load, hne]

/-- The pair call of `getSize` in closed form. -/
theorem Container.getSizePair_eq (c : Container) :
    c.getSizePair = ((c.x1 - c.x0, c.y1 - c.y0), c) := by
  rfl

/-- The receiver after `move`, in closed form. -/
theorem Container.move_eq (c : Container) (dx dy : Int) :
    c.move dx dy = Container.mk (c.x0 + dx) (c.y0 + dy) (c.x1 + dx) (c.y1 + dy) := by
  rfl

/-- The frame of `getSize` depends on where the out-parameters point: an
out-parameter that is the address of a data member is assigned through. -/
theorem Container.getSize_member_pointer :
    (Container.getSize IntPtr.x0 (IntPtr.cell 0) ⟨Container.mk 0 0 4 3, fun _ => 0⟩).obj
      = Container.mk 4 0 4 3 := by
  decide

/-- Integers congruent modulo `2^32` wrap to the same 32-bit value. -/
theorem wrapInt32_congr (a b : Int) (h : a ≡ b [ZMOD 4294967296]) :
    wrapInt32 a = wrapInt32 b := by
  unfold wrapInt32
  have hK : (a + 2147483648) % 4294967296 = (b + 2147483648) % 4294967296 :=
    h.add_right 2147483648
  rw [hK]

/-- Wrapping changes an integer by a multiple of `2^32` only. -/
theorem wrapInt32_modEq (a : Int) : wrapInt32 a ≡ a [ZMOD 4294967296] := by
  unfold wrapInt32
  have h := (Int.mod_modEq (a + 2147483648) 4294967296).sub_right 2147483648
  simpa using h

/-- A wrapped integer is a 32-bit value. -/
theorem isInt32_wrapInt32 (z : Int) : isInt32 (wrapInt32 z) = true := by
  simp only [isInt32, wrapInt32, Bool.and_eq_true, decide_eq_true_eq]
  omega

/-- Wrapping leaves a 32-bit value as it is: without overflow the 32-bit operations
are the ones on `Int`. -/
theorem wrapInt32_of_isInt32 (z : Int) (h : isInt32 z = true) : wrapInt32 z = z := by
  simp only [isInt32, Bool.and_eq_true, decide_eq_true_eq] at h
  unfold wrapInt32
  omega

/-- The difference of two wrapped sums with a common shift wraps to the unshifted
difference. -/
theorem wrapInt32_sub_shift (p q d : Int) :
    wrapInt32 (wrapInt32 (p + d) - wrapInt32 (q + d)) = wrapInt32 (p - q) := by
  apply wrapInt32_congr
  have h := (wrapInt32_modEq (p + d)).sub (wrapInt32_modEq (q + d))
  have e : p + d - (q + d) = p - q := by ring
  rw [e] at h
  exact h

/-- The pair call of `getSize` on 32-bit `int`, in closed form. -/
theorem Container.getSizePair32_eq (c : Container) :
    c.getSizePair32 = ((wrapInt32 (c.x1 - c.x0), wrapInt32 (c.y1 - c.y0)), c) := by
  rfl

/-- The receiver after `move` on 32-bit `int`, in closed form. -/
theorem Container.move32_eq (c : Container) (dx dy : Int) :
    c.move32 dx dy
      = Container.mk (wrapInt32 (c.x0 + dx)) (wrapInt32 (c.y0 + dy))
          (wrapInt32 (c.x1 + dx)) (wrapInt32 (c.y1 + dy)) := by
  rfl

/-- The area computed on 32-bit `int` differs from the exact product of the exact
differences by a multiple of `2^32` only. -/
theorem Container.getArea32_modEq (c : Container) :
    c.getArea32.1 ≡ (c.x1 - c.x0) * (c.y1 - c.y0) [ZMOD 4294967296] :=
  (wrapInt32_modEq _).trans ((wrapInt32_modEq _).mul (wrapInt32_modEq _))

/-- Without overflow in the two differences and in their product, `getArea` on 32-bit
`int` is `getArea` on the integers. -/
theorem Container.getArea32_of_no_overflow (c : Container)
    (hw : isInt32 (c.x1 - c.x0) = true) (hh : isInt32 (c.y1 - c.y0) = true)
    (hp : isInt32 ((c.x1 - c.x0) * (c.y1 - c.y0)) = true) :
    c.getArea32 = c.getArea := by
  simp only [Container.getArea32, Container.getArea, wrapInt32_of_isInt32 _ hw,
    wrapInt32_of_isInt32 _ hh, wrapInt32_of_isInt32 _ hp]

/-- Without overflow in the two differences, the pair call of `getSize` on 32-bit `int`
is the pair call on the integers. -/
theorem Container.getSizePair32_of_no_overflow (c : Container)
    (hw : isInt32 (c.x1 - c.x0) = true) (hh : isInt32 (c.y1 - c.y0) = true) :
    c.getSizePair32 = c.getSizePair := by
  simp only [Container.getSizePair32_eq, Container.getSizePair_eq,
    wrapInt32_of_isInt32 _ hw, wrapInt32_of_isInt32 _ hh]

/-- Without overflow in the four sums, `move` on 32-bit `int` is `move` on the
integers. -/
theorem Container.move32_of_no_overflow (c : Container) (dx dy : Int)
    (hx0 : isInt32 (c.x0 + dx) = true) (hy0 : isInt32 (c.y0 + dy) = true)
    (hx1 : isInt32 (c.x1 + dx) = true) (hy1 : isInt32 (c.y1 + dy) = true) :
    c.move32 dx dy = c.move dx dy := by
  simp only [Container.move32_eq, Container.move_eq, wrapInt32_of_isInt32 _ hx0,
    wrapInt32_of_isInt32 _ hy0, wrapInt32_of_isInt32 _ hx1, wrapInt32_of_isInt32 _ hy1]

/-! ## Area and size after construction -/

/-- C1: for all integers `x0 y0 x1 y1`, `getArea()` on the rectangle built by the
four-argument constructor returns exactly `(x1 - x0) * (y1 - y0)`, whatever the
storage held before construction. -/
theorem Container.getArea_overloadedConstructor (raw : Container) (x0 y0 x1 y1 : Int) :
    (Container.overloadedConstructor raw x0 y0 x1 y1).getArea.1 = (x1 - x0) * (y1 - y0) := by
  rfl

/-- C2: for all integers `x0 y0 x1 y1`, `getSize()` on the rectangle built by the
four-argument constructor writes width `x1 - x0` and height `y1 - y0`: the pair read
back from the two out-parameters is `(x1 - x0, y1 - y0)`. -/
theorem Container.getSizePair_overloadedConstructor (raw : Container) (x0 y0 x1 y1 : Int) :
    (Container.overloadedConstructor raw x0 y0 x1 y1).getSizePair.1 = (x1 - x0, y1 - y0) := by
  rfl

/-! ## Translation -/

/-- C3, as stated, fails on overflow: `move(1, -1)` on the rectangle
`(2147483647, -2147483648, 0, 0)` leaves `(-2147483648, 2147483647, 1, -1)`, whose
first two fields are not the sums `x0 + dx` and `y0 + dy`. -/
theorem Container.move32_overflow_not_sums :
    (Container.mk 2147483647 (-2147483648) 0 0).move32 1 (-1)
        = Container.mk (-2147483648) 2147483647 1 (-1)
      ∧ (Container.mk 2147483647 (-2147483648) 0 0).move32 1 (-1)
        ≠ Container.mk (2147483647 + 1) (-2147483648 + -1) (0 + 1) (0 + -1) := by
  decide

/-- C3, amended: for every rectangle `(x0, y0, x1, y1)` and all integers `dx dy`, when
none of the four sums overflows the 32-bit `int`, after `move(dx, dy)` the fields are
exactly `(x0 + dx, y0 + dy, x1 + dx, y1 + dy)`; in every case each field is the 32-bit
value congruent modulo `2^32` to its own sum, `dx` going to the x-coordinates and `dy`
to the y-coordinates only. -/
theorem Container.move32_fields (x0 y0 x1 y1 dx dy : Int) :
    (isInt32 (x0 + dx) = true → isInt32 (y0 + dy) = true
        → isInt32 (x1 + dx) = true → isInt32 (y1 + dy) = true
        → (Container.mk x0 y0 x1 y1).move32 dx dy
            = Container.mk (x0 + dx) (y0 + dy) (x1 + dx) (y1 + dy))
      ∧ (isInt32 ((Container.mk x0 y0 x1 y1).move32 dx dy).x0 = true
          ∧ ((Container.mk x0 y0 x1 y1).move32 dx dy).x0 ≡ x0 + dx [ZMOD 4294967296])
      ∧ (isInt32 ((Container.mk x0 y0 x1 y1).move32 dx dy).y0 = true
          ∧ ((Container.mk x0 y0 x1 y1).move32 dx dy).y0 ≡ y0 + dy [ZMOD 4294967296])
      ∧ (isInt32 ((Container.mk x0 y0 x1 y1).move32 dx dy).x1 = true
          ∧ ((Container.mk x0 y0 x1 y1).move32 dx dy).x1 ≡ x1 + dx [ZMOD 4294967296])
      ∧ (isInt32 ((Container.mk x0 y0 x1 y1).move32 dx dy).y1 = true
          ∧ ((Container.mk x0 y0 x1 y1).move32 dx dy).y1 ≡ y1 + dy [ZMOD 4294967296]) := by
  refine ⟨fun hx0 hy0 hx1 hy1 => ?_, ?_, ?_, ?_, ?_⟩
  · rw [Container.move32_of_no_overflow _ dx dy hx0 hy0 hx1 hy1, Container.move_eq]
  · exact ⟨isInt32_wrapInt32 _, wrapInt32_modEq _⟩
  · exact ⟨isInt32_wrapInt32 _, wrapInt32_modEq _⟩
  · exact ⟨isInt32_wrapInt32 _, wrapInt32_modEq _⟩
  · exact ⟨isInt32_wrapInt32 _, wrapInt32_modEq _⟩

/-- Instance of amended C3 at the rectangle `(0, 0, 4, 3)` moved by `(2, -1)`: no sum
overflows and the fields are `(2, -1, 6, 2)`. -/
theorem Container.move32_fields_witness :
    (Container.mk 0 0 4 3).move32 2 (-1) = Container.mk (0 + 2) (0 + -1) (4 + 2) (3 + -1) :=
  (Container.move32_fields 0 0 4 3 2 (-1)).1 (by decide) (by decide) (by decide) (by decide)

/-- C4: for every rectangle and all integers `dx dy`, `getSize()` and `getArea()` return
the same after `move(dx, dy)` as before it; and `Container(0,0,4,3)` has area `12` and
size `(4,3)` both before and after `move(2,-1)`. -/
theorem Container.move_preserves_size_area :
    (∀ (c : Container) (dx dy : Int),
        (c.move dx dy).getSizePair.1 = c.getSizePair.1
          ∧ (c.move dx dy).getArea.1 = c.getArea.1)
      ∧ ∀ raw : Container,
          (Container.overloadedConstructor raw 0 0 4 3).getArea.1 = 12
            ∧ (Container.overloadedConstructor raw 0 0 4 3).getSizePair.1 = (4, 3)
            ∧ ((Container.overloadedConstructor raw 0 0 4 3).move 2 (-1)).getArea.1 = 12
            ∧ ((Container.overloadedConstructor raw 0 0 4 3).move 2 (-1)).getSizePair.1
                = (4, 3) := by
  refine ⟨fun c dx dy => ?_, fun raw => ?_⟩
  · rw [Container.getSizePair_eq, Container.getSizePair_eq, Container.move_eq]
    simp only [Container.getArea, Prod.mk.injEq]
    refine ⟨⟨?_, ?_⟩, ?_⟩ <;> ring
  · rw [Container.overloadedConstructor_eq]
    decide

/-- C5: for every rectangle `r` and all integers `dx1 dy1 dx2 dy2`, `move(dx1, dy1)`
followed by `move(dx2, dy2)` yields the same rectangle, field by field, as the single
`move(dx1 + dx2, dy1 + dy2)`. -/
theorem Container.move_move (r : Container) (dx1 dy1 dx2 dy2 : Int) :
    (r.move dx1 dy1).move dx2 dy2 = r.move (dx1 + dx2) (dy1 + dy2) := by
  simp only [Container.move_eq, Container.mk.injEq]
  refine ⟨?_, ?_, ?_, ?_⟩ <;> ring

/-! ## Construction and reversed corners -/

/-- C6: for all integers `x0 y0 x1 y1`, the four-argument constructor stores its
arguments verbatim and in order, whatever their relative order and whatever the
storage held: the fields `x0`, `y0`, `x1`, `y1` of the result are the arguments. -/
theorem Container.overloadedConstructor_fields (raw : Container) (x0 y0 x1 y1 : Int) :
    (Container.overloadedConstructor raw x0 y0 x1 y1).x0 = x0
      ∧ (Container.overloadedConstructor raw x0 y0 x1 y1).y0 = y0
      ∧ (Container.overloadedConstructor raw x0 y0 x1 y1).x1 = x1
      ∧ (Container.overloadedConstructor raw x0 y0 x1 y1).y1 = y1 := by
  exact ⟨rfl, rfl, rfl, rfl⟩

/-- C7: for all integers `x0 y0 x1 y1`, on the rectangle built by the four-argument
constructor, if `x1 < x0` the width written by `getSize()` is strictly negative and if
`y1 < y0` the height is strictly negative, the call returning its pair as on any
input; and `Container(5,5,2,1)` has size `(-3,-4)` and area `12`. -/
theorem Container.getSizePair_reversed (raw : Container) (x0 y0 x1 y1 : Int) :
    (x1 < x0 → (Container.overloadedConstructor raw x0 y0 x1 y1).getSizePair.1.1 < 0)
      ∧ (y1 < y0 → (Container.overloadedConstructor raw x0 y0 x1 y1).getSizePair.1.2 < 0)
      ∧ (Container.overloadedConstructor raw 5 5 2 1).getSizePair.1 = (-3, -4)
      ∧ (Container.overloadedConstructor raw 5 5 2 1).getArea.1 = 12 := by
  simp only [Container.overloadedConstructor_eq, Container.getSizePair_eq]
  refine ⟨fun hx => ?_, fun hy => ?_, ?_, ?_⟩
  · show x1 - x0 < 0
    linarith
  · show y1 - y0 < 0
    linarith
  · decide
  · decide

/-- Instance of C7 at `Container(5,5,2,1)`: both corners reversed, width and height
strictly negative. -/
theorem Container.getSizePair_reversed_witness :
    (Container.overloadedConstructor (Container.mk 9 9 9 9) 5 5 2 1).getSizePair.1.1 < 0
      ∧ (Container.overloadedConstructor (Container.mk 9 9 9 9) 5 5 2 1).getSizePair.1.2 < 0 :=
  ⟨(Container.getSizePair_reversed (Container.mk 9 9 9 9) 5 5 2 1).1 (by decide),
   (Container.getSizePair_reversed (Container.mk 9 9 9 9) 5 5 2 1).2.1 (by decide)⟩

/-- C8, as stated, fails: `Container(5,5,2,1)` has both corners reversed and area `12`;
`Container(1,0,0,0)` has `x1 < x0` and area `0`; and `Container(0,0,-46341,46341)` has
`x1 < x0` with the other axis forward, but its product overflows the 32-bit `int` and
`getArea()` returns `2147479015`. None of the three areas is negative. -/
theorem Container.getArea32_reversed_not_negative :
    (((2 : Int) < 5 ∨ (1 : Int) < 5)
        ∧ (Container.overloadedConstructor (Container.mk 0 0 0 0) 5 5 2 1).getArea32.1 = 12)
      ∧ (((0 : Int) < 1 ∨ (0 : Int) < 0)
        ∧ (Container.overloadedConstructor (Container.mk 0 0 0 0) 1 0 0 0).getArea32.1 = 0)
      ∧ (((-46341 : Int) < 0 ∨ (46341 : Int) < 0)
        ∧ (Container.overloadedConstructor (Container.mk 0 0 0 0) 0 0 (-46341) 46341).getArea32.1
            = 2147479015) := by
  decide

/-- C8, amended: for all integers `x0 y0 x1 y1` with exactly one axis reversed and the
other strictly forward (`x1 < x0` and `y0 < y1`, or `y1 < y0` and `x0 < x1`), and with
no overflow of the 32-bit `int` in the two differences and in their product,
`getArea()` on the rectangle built by the four-argument constructor is strictly
negative. -/
theorem Container.getArea32_neg_of_one_axis_reversed (raw : Container) (x0 y0 x1 y1 : Int)
    (h : (x1 < x0 ∧ y0 < y1) ∨ (y1 < y0 ∧ x0 < x1))
    (hw : isInt32 (x1 - x0) = true) (hh : isInt32 (y1 - y0) = true)
    (hp : isInt32 ((x1 - x0) * (y1 - y0)) = true) :
    (Container.overloadedConstructor raw x0 y0 x1 y1).getArea32.1 < 0 := by
  rw [Container.overloadedConstructor_eq,
    Container.getArea32_of_no_overflow (Container.mk x0 y0 x1 y1) hw hh hp]
  show (x1 - x0) * (y1 - y0) < 0
  rcases h with ⟨hx, hy⟩ | ⟨hy, hx⟩
  · exact mul_neg_of_neg_of_pos (by linarith) (by linarith)
  · exact mul_neg_of_pos_of_neg (by linarith) (by linarith)

/-- Instance of amended C8 at `Container(5,0,2,4)`: the x axis reversed, the y axis
forward, nothing overflows, area `-12`. -/
theorem Container.getArea32_neg_of_one_axis_reversed_witness :
    (((2 : Int) < 5 ∧ (0 : Int) < 4) ∨ ((4 : Int) < 0 ∧ (5 : Int) < 2))
      ∧ (Container.overloadedConstructor (Container.mk 0 0 0 0) 5 0 2 4).getArea32.1 < 0 :=
  ⟨by decide,
   Container.getArea32_neg_of_one_axis_reversed (Container.mk 0 0 0 0) 5 0 2 4 (by decide)
     (by decide) (by decide) (by decide)⟩

/-! ## Queries: frame and totality -/

/-- C9, as stated, fails for `getSize`: it assigns through whatever its out-parameters
point at. With `width` the address of the member `x0`, the call on `(0,0,4,3)` leaves
`(4,0,4,3)`; with the out-parameters the addresses of `x1` and `y1`, the call on
`(1,2,5,7)` reads back `(4,5)` and the same call repeated reads back `(3,3)`. -/
theorem Container.getSize32_member_pointer :
    (Container.getSize32 IntPtr.x0 (IntPtr.cell 0) ⟨Container.mk 0 0 4 3, fun _ => 0⟩).obj
        = Container.mk 4 0 4 3
      ∧ (Container.getSize32 IntPtr.x0 (IntPtr.cell 0) ⟨Container.mk 0 0 4 3, fun _ => 0⟩).obj
        ≠ Container.mk 0 0 4 3
      ∧ ((Container.getSize32 IntPtr.x1 IntPtr.y1
            ⟨Container.mk 1 2 5 7, fun _ => 0⟩).load IntPtr.x1,
          (Container.getSize32 IntPtr.x1 IntPtr.y1
            ⟨Container.mk 1 2 5 7, fun _ => 0⟩).load IntPtr.y1) = (4, 5)
      ∧ ((Container.getSize32 IntPtr.x1 IntPtr.y1
            (Container.getSize32 IntPtr.x1 IntPtr.y1
              ⟨Container.mk 1 2 5 7, fun _ => 0⟩)).load IntPtr.x1,
          (Container.getSize32 IntPtr.x1 IntPtr.y1
            (Container.getSize32 IntPtr.x1 IntPtr.y1
              ⟨Container.mk 1 2 5 7, fun _ => 0⟩)).load IntPtr.y1) = (3, 3) := by
  decide

/-- C9, amended: `getArea()` assigns to no field, and `getSize(width, height)` assigns
only through its two out-parameters: for every rectangle, after `getArea()`, and after
`getSize` with both out-parameters outside the rectangle, all four fields are
unchanged, so either query repeated, or made after the other, returns the same result
and `getSize` repeated leaves the memory as the first call left it. -/
theorem Container.queries_pure32 (c : Container) :
    c.getArea32.2 = c
      ∧ (∀ (w h : Nat) (cells : Nat → Int),
          (Container.getSize32 (IntPtr.cell w) (IntPtr.cell h) ⟨c, cells⟩).obj = c)
      ∧ (∀ (w h : Nat) (cells : Nat → Int),
          Container.getSize32 (IntPtr.cell w) (IntPtr.cell h)
              (Container.getSize32 (IntPtr.cell w) (IntPtr.cell h) ⟨c, cells⟩)
            = Container.getSize32 (IntPtr.cell w) (IntPtr.cell h) ⟨c, cells⟩)
      ∧ c.getSizePair32.2 = c
      ∧ c.getArea32.2.getArea32 = c.getArea32
      ∧ c.getSizePair32.2.getSizePair32 = c.getSizePair32
      ∧ c.getSizePair32.2.getArea32 = c.getArea32
      ∧ c.getArea32.2.getSizePair32 = c.getSizePair32 := by
  refine ⟨rfl, fun _ _ _ => rfl, fun w h cells => ?_, rfl, rfl, rfl, rfl, rfl⟩
  simp only [Container.getSize32, Memory.store, Memory.mk.injEq, true_and]
  funext k
  split_ifs <;> rfl

/-- C10, as stated, fails on overflow: on a default-constructed rectangle whose storage
holds `(0, 0, 46341, 46341)`, `getArea()` returns `-2147479015`, which is not
`(x1 - x0) * (y1 - y0)` of the held fields. -/
theorem Container.getArea32_defaultConstructor_overflow :
    (Container.defaultConstructor (Container.mk 0 0 46341 46341)).getArea32.1 = -2147479015
      ∧ (Container.defaultConstructor (Container.mk 0 0 46341 46341)).getArea32.1
        ≠ (46341 - 0) * (46341 - 0) := by
  decide

/-- C10, amended: no operation has an error branch: for every value of the four fields
and all integers `dx dy`, `getArea()`, `getSize()` and `move(dx, dy)` each produce a
result made of 32-bit `int` values; on a default-constructed rectangle, whose fields are
whatever its storage held, `getArea()` and `getSize()` return `(x1 - x0) * (y1 - y0)`
and `(x1 - x0, y1 - y0)` of those fields up to a multiple of `2^32`, and exactly so
when the two differences and the product do not overflow the 32-bit `int`. -/
theorem Container.operations_total32 :
    (∀ (c : Container) (dx dy : Int),
        isInt32 c.getArea32.1 = true
          ∧ (isInt32 c.getSizePair32.1.1 = true ∧ isInt32 c.getSizePair32.1.2 = true)
          ∧ (isInt32 (c.move32 dx dy).x0 = true ∧ isInt32 (c.move32 dx dy).y0 = true
            ∧ isInt32 (c.move32 dx dy).x1 = true ∧ isInt32 (c.move32 dx dy).y1 = true))
      ∧ ∀ raw : Container,
          (Container.defaultConstructor raw).getArea32.1
              ≡ (raw.x1 - raw.x0) * (raw.y1 - raw.y0) [ZMOD 4294967296]
            ∧ (Container.defaultConstructor raw).getSizePair32.1.1
              ≡ raw.x1 - raw.x0 [ZMOD 4294967296]
            ∧ (Container.defaultConstructor raw).getSizePair32.1.2
              ≡ raw.y1 - raw.y0 [ZMOD 4294967296]
            ∧ (isInt32 (raw.x1 - raw.x0) = true → isInt32 (raw.y1 - raw.y0) = true
              → (Container.defaultConstructor raw).getSizePair32.1
                  = (raw.x1 - raw.x0, raw.y1 - raw.y0)
                ∧ (isInt32 ((raw.x1 - raw.x0) * (raw.y1 - raw.y0)) = true
                  → (Container.defaultConstructor raw).getArea32.1
                      = (raw.x1 - raw.x0) * (raw.y1 - raw.y0))) := by
  refine ⟨fun c dx dy => ⟨isInt32_wrapInt32 _, ⟨isInt32_wrapInt32 _, isInt32_wrapInt32 _⟩,
    isInt32_wrapInt32 _, isInt32_wrapInt32 _, isInt32_wrapInt32 _, isInt32_wrapInt32 _⟩,
    fun raw => ⟨Container.getArea32_modEq raw, wrapInt32_modEq _, wrapInt32_modEq _,
      fun hw hh => ⟨?_, fun hp => ?_⟩⟩⟩
  · show (raw.getSizePair32).1 = _
    rw [Container.getSizePair32_of_no_overflow raw hw hh, Container.getSizePair_eq]
  · show (raw.getArea32).1 = _
    rw [Container.getArea32_of_no_overflow raw hw hh hp]
    rfl

/-- Instance of amended C10 on a default-constructed rectangle whose storage holds
`(0, 0, 4, 3)`: nothing overflows, the size is `(4, 3)` and the area `12`. -/
theorem Container.operations_total32_witness :
    (Container.defaultConstructor (Container.mk 0 0 4 3)).getSizePair32.1 = (4 - 0, 3 - 0)
      ∧ (Container.defaultConstructor (Container.mk 0 0 4 3)).getArea32.1
        = (4 - 0) * (3 - 0) :=
  ⟨((Container.operations_total32.2 (Container.mk 0 0 4 3)).2.2.2 (by decide) (by decide)).1,
   ((Container.operations_total32.2 (Container.mk 0 0 4 3)).2.2.2 (by decide) (by decide)).2
     (by decide)⟩

/-! ## Relations between the operations -/

/-- C11, as stated, fails on overflow: on the rectangle `(0, 0, 65536, 65536)`
`getSize()` writes the pair `(65536, 65536)`, whose product is `4294967296`, and
`getArea()` returns `0`. -/
theorem Container.getArea32_ne_width_mul_height :
    (Container.mk 0 0 65536 65536).getSizePair32.1 = (65536, 65536)
      ∧ (Container.mk 0 0 65536 65536).getArea32.1 = 0
      ∧ (Container.mk 0 0 65536 65536).getArea32.1
        ≠ (Container.mk 0 0 65536 65536).getSizePair32.1.1
          * (Container.mk 0 0 65536 65536).getSizePair32.1.2 := by
  decide

/-- C11, amended: for every rectangle, the value returned by `getArea()` is the product
`width * height` of the pair written by `getSize()` on the same rectangle, the product
taken in 32-bit `int` with wraparound; it is the exact product whenever that product
does not overflow the 32-bit `int`. -/
theorem Container.getArea32_eq_width_mul_height (c : Container) :
    c.getArea32.1 = wrapInt32 (c.getSizePair32.1.1 * c.getSizePair32.1.2)
      ∧ (isInt32 (c.getSizePair32.1.1 * c.getSizePair32.1.2) = true
        → c.getArea32.1 = c.getSizePair32.1.1 * c.getSizePair32.1.2) := by
  refine ⟨rfl, fun hp => ?_⟩
  show wrapInt32 (c.getSizePair32.1.1 * c.getSizePair32.1.2) = _
  exact wrapInt32_of_isInt32 _ hp

/-- Instance of amended C11 at the rectangle `(5, 5, 2, 1)`: the pair is `(-3, -4)`, its
product `12` does not overflow, and the area is that product. -/
theorem Container.getArea32_eq_width_mul_height_witness :
    (Container.mk 5 5 2 1).getArea32.1
      = (Container.mk 5 5 2 1).getSizePair32.1.1 * (Container.mk 5 5 2 1).getSizePair32.1.2 :=
  (Container.getArea32_eq_width_mul_height (Container.mk 5 5 2 1)).2 (by decide)

/-- C12: for all integers `x0 y0 x1 y1`, `getArea()` on the rectangle built by the
four-argument constructor is strictly negative if and only if exactly one axis is
strictly reversed (`x1 < x0` and `y1 > y0`, or `x1 > x0` and `y1 < y0`), is zero if and
only if `x1 = x0` or `y1 = y0`, and is strictly positive when both axes are reversed
(`x1 < x0` and `y1 < y0`). -/
theorem Container.getArea_sign (raw : Container) (x0 y0 x1 y1 : Int) :
    ((Container.overloadedConstructor raw x0 y0 x1 y1).getArea.1 < 0
        ↔ (x1 < x0 ∧ y1 > y0) ∨ (x1 > x0 ∧ y1 < y0))
      ∧ ((Container.overloadedConstructor raw x0 y0 x1 y1).getArea.1 = 0
        ↔ x1 = x0 ∨ y1 = y0)
      ∧ (x1 < x0 ∧ y1 < y0
        → 0 < (Container.overloadedConstructor raw x0 y0 x1 y1).getArea.1) := by
  rw [Container.overloadedConstructor_eq]
  refine ⟨?_, ?_, ?_⟩
  · show (x1 - x0) * (y1 - y0) < 0 ↔ _
    rw [mul_neg_iff, sub_pos, sub_neg, sub_pos, sub_neg]
    tauto
  · show (x1 - x0) * (y1 - y0) = 0 ↔ _
    rw [mul_eq_zero, sub_eq_zero, sub_eq_zero]
  · rintro ⟨hx, hy⟩
    show 0 < (x1 - x0) * (y1 - y0)
    exact mul_pos_of_neg_of_neg (by linarith) (by linarith)

/-- Instance of C12 at `Container(5,5,2,1)`: both axes reversed, area strictly
positive. -/
theorem Container.getArea_sign_witness :
    ((2 : Int) < 5 ∧ (1 : Int) < 5)
      ∧ 0 < (Container.overloadedConstructor (Container.mk 0 0 0 0) 5 5 2 1).getArea.1 :=
  ⟨by decide,
   (Container.getArea_sign (Container.mk 0 0 0 0) 5 5 2 1).2.2 (by decide)⟩

/-- C13: `move(0, 0)` leaves every rectangle unchanged; for every rectangle `r` and all
integers `dx dy`, `move(dx, dy)` followed by `move(-dx, -dy)` restores all four fields
of `r`; and `move(a, b)` followed by `move(c, d)` yields the same rectangle as
`move(c, d)` followed by `move(a, b)`. -/
theorem Container.move_zero_inverse_comm (r : Container) (dx dy a b c d : Int) :
    r.move 0 0 = r
      ∧ (r.move dx dy).move (-dx) (-dy) = r
      ∧ (r.move a b).move c d = (r.move c d).move a b := by
  obtain ⟨x0, y0, x1, y1⟩ := r
  simp only [Container.move_eq, Container.mk.injEq]
  refine ⟨⟨?_, ?_, ?_, ?_⟩, ⟨?_, ?_, ?_, ?_⟩, ⟨?_, ?_, ?_, ?_⟩⟩ <;> ring

/-! ## Translation on 32-bit `int` -/

/-- C14: with the fields and every `+`, `-`, `*` taken as 32-bit two's complement with
wraparound, for every rectangle and all `dx dy`, `getSize()` and `getArea()` after
`move(dx, dy)` equal their values before it, also when the coordinate additions
overflow: `Container(2147483640, 0, 2147483647, 5)` moved by `(10, 0)` wraps both
x-coordinates to negative values and keeps size `(7, 5)` and area `35`. The fields
after a move are 32-bit values. -/
theorem Container.move32_preserves_size_area :
    (∀ (c : Container) (dx dy : Int),
        (c.move32 dx dy).getSizePair32.1 = c.getSizePair32.1
          ∧ (c.move32 dx dy).getArea32.1 = c.getArea32.1)
      ∧ (∀ (c : Container) (dx dy : Int),
        isInt32 (c.move32 dx dy).x0 = true ∧ isInt32 (c.move32 dx dy).y0 = true
          ∧ isInt32 (c.move32 dx dy).x1 = true ∧ isInt32 (c.move32 dx dy).y1 = true)
      ∧ (Container.mk 2147483640 0 2147483647 5).move32 10 0
          = Container.mk (-2147483646) 0 (-2147483639) 5
      ∧ (Container.mk 2147483640 0 2147483647 5).getSizePair32.1 = (7, 5)
      ∧ ((Container.mk 2147483640 0 2147483647 5).move32 10 0).getSizePair32.1 = (7, 5)
      ∧ (Container.mk 2147483640 0 2147483647 5).getArea32.1 = 35
      ∧ ((Container.mk 2147483640 0 2147483647 5).move32 10 0).getArea32.1 = 35 := by
  refine ⟨fun c dx dy => ?_, fun c dx dy => ?_, by decide, by decide, by decide,
    by decide, by decide⟩
  · simp only [Container.getSizePair32_eq, Container.getArea32, Container.move32_eq,
      wrapInt32_sub_shift]
    exact ⟨trivial, trivial⟩
  · simp only [Container.move32_eq, isInt32_wrapInt32]
    exact ⟨trivial, trivial, trivial, trivial⟩

end shapes
